import Mathlib

/-!
Verification of the vehicle damage detection core against its specification.

The definitions below are a shallow embedding of the Python source:

* `src/src/domain/entities/damage.py`            — enums, `BoundingBox`, `Damage`
* `src/src/domain/entities/video.py`             — `VideoStatus`, `VideoFormat`, `VideoMetadata`, `Video`
* `src/src/infrastructure/ml/yolo_damage_detector.py`
    — `_determine_severity`, `detect_damages_in_frame`, `detect_damages_in_video`
* `src/src/domain/use_cases/process_video_use_case.py`  — `execute`
* `src/src/application/services/video_processing_app_service.py`
    — `process_single_video`, `process_multiple_videos`, `cleanup_failed_videos`
* `src/src/infrastructure/repositories/json_video_repository.py`
    — `_video_to_dict`, `_dict_to_video`, `find_by_status`

Python floats are modelled as rationals (`ℚ`); Python exceptions are modelled
with `Except String`; `datetime` values are modelled by their ISO-format string
(so `isoformat`/`fromisoformat` are the identity); file-system facts such as
`Path.exists()` and the supported-suffix test are modelled as boolean
predicates on path strings, passed in as parameters.
-/

namespace VDD

/-- `DamageType` from `damage.py`: SCRATCH, DENT, CRACK, RUST, BROKEN_PART, UNKNOWN. -/
inductive DamageType
  | scratch
  | dent
  | crack
  | rust
  | brokenPart
  | unknown
  deriving DecidableEq, Repr

/-- The `.value` string tokens of `DamageType`. -/
def DamageType.value : DamageType → String
  | .scratch => "scratch"
  | .dent => "dent"
  | .crack => "crack"
  | .rust => "rust"
  | .brokenPart => "broken_part"
  | .unknown => "unknown"

/-- `DamageSeverity` from `damage.py`.  Note the member NAMES are
`LOW`, `MEDIUM`, `HIGH`, `CRITICAL` (values "low", "medium", "high",
"critical"); there are no members named `MINOR`, `MODERATE` or `SEVERE`. -/
inductive DamageSeverity
  | low
  | medium
  | high
  | critical
  deriving DecidableEq, Repr

/-- The `.value` string tokens of `DamageSeverity`. -/
def DamageSeverity.value : DamageSeverity → String
  | .low => "low"
  | .medium => "medium"
  | .high => "high"
  | .critical => "critical"

/-- Python attribute lookup `DamageSeverity.<NAME>`: returns the member for the
four names that exist in `damage.py`, and `none` (an `AttributeError`) for any
other name.  `yolo_damage_detector.py` refers to `DamageSeverity.MINOR`,
`DamageSeverity.MODERATE` and `DamageSeverity.SEVERE`, which do not exist. -/
def severityMember : String → Option DamageSeverity
  | "LOW" => some .low
  | "MEDIUM" => some .medium
  | "HIGH" => some .high
  | "CRITICAL" => some .critical
  | _ => none

/-- `BoundingBox` from `damage.py`: fields `x`, `y`, `width`, `height`. -/
structure BoundingBox where
  x : ℚ
  y : ℚ
  width : ℚ
  height : ℚ
  deriving DecidableEq, Repr

/-- `BoundingBox.area = width * height`. -/
def BoundingBox.area (b : BoundingBox) : ℚ := b.width * b.height

/-- `Damage` from `damage.py`.  The entity declares `timestamp: datetime`, but
the detector stores the float `frame_number / fps` in it; we model the field as
the rational the running system actually stores. -/
structure Damage where
  id : String
  damageType : DamageType
  severity : DamageSeverity
  confidence : ℚ
  boundingBox : BoundingBox
  frameNumber : Nat
  timestamp : ℚ
  description : Option String := none
  deriving DecidableEq, Repr

/-- `YOLODamageDetector._determine_severity` (yolo_damage_detector.py 257-284).
The thresholds are `area_small = 1000`, `area_medium = 5000`,
`confidence_high = 0.8`, `confidence_medium = 0.6`.  Each branch returns
`DamageSeverity.<NAME>`; that attribute access is modelled by
`severityMember`, so a name that is not a member of the enum raises
`AttributeError`. -/
def determineSeverity (boundingBox : BoundingBox) (confidence : ℚ) :
    Except String DamageSeverity :=
  let area := boundingBox.area
  let name :=
    if confidence ≥ 8/10 then
      if area ≥ 5000 then "CRITICAL"
      else if area ≥ 1000 then "SEVERE"
      else "MODERATE"
    else if confidence ≥ 6/10 then
      if area ≥ 5000 then "SEVERE"
      else if area ≥ 1000 then "MODERATE"
      else "MINOR"
    else
      if area ≥ 5000 then "MODERATE"
      else "MINOR"
  match severityMember name with
  | some s => Except.ok s
  | none => Except.error ("AttributeError: type object DamageSeverity has no attribute " ++ name)

/-- `VideoStatus` from `video.py`. -/
inductive VideoStatus
  | pending
  | processing
  | completed
  | failed
  | cancelled
  deriving DecidableEq, Repr

/-- The `.value` string tokens of `VideoStatus`. -/
def VideoStatus.value : VideoStatus → String
  | .pending => "pending"
  | .processing => "processing"
  | .completed => "completed"
  | .failed => "failed"
  | .cancelled => "cancelled"

/-- The enum constructor `VideoStatus(token)`: the member with that value, or
`none` (a `ValueError`) when no member has it. -/
def VideoStatus.ofValue (s : String) : Option VideoStatus :=
  if s = "pending" then some .pending
  else if s = "processing" then some .processing
  else if s = "completed" then some .completed
  else if s = "failed" then some .failed
  else if s = "cancelled" then some .cancelled
  else none

/-- `VideoFormat` from `video.py`. -/
inductive VideoFormat
  | mp4
  | avi
  | mov
  | mkv
  | wmv
  | flv
  | webm
  | unknownFmt
  deriving DecidableEq, Repr

/-- The `.value` string tokens of `VideoFormat`. -/
def VideoFormat.value : VideoFormat → String
  | .mp4 => "mp4"
  | .avi => "avi"
  | .mov => "mov"
  | .mkv => "mkv"
  | .wmv => "wmv"
  | .flv => "flv"
  | .webm => "webm"
  | .unknownFmt => "unknown"

/-- The enum constructor `VideoFormat(token)`. -/
def VideoFormat.ofValue (s : String) : Option VideoFormat :=
  if s = "mp4" then some .mp4
  else if s = "avi" then some .avi
  else if s = "mov" then some .mov
  else if s = "mkv" then some .mkv
  else if s = "wmv" then some .wmv
  else if s = "flv" then some .flv
  else if s = "webm" then some .webm
  else if s = "unknown" then some .unknownFmt
  else none

/-- `VideoMetadata` from `video.py`. -/
structure VideoMetadata where
  duration : ℚ
  fps : ℚ
  width : Int
  height : Int
  frameCount : Int
  format : VideoFormat
  fileSize : Int
  codec : String := "Unknown"
  bitrate : Int := 0
  deriving DecidableEq, Repr

/-- The `VideoMetadata.__post_init__` validation: all numeric fields positive
(constructing metadata that fails this raises `ValueError`). -/
def VideoMetadata.valid (m : VideoMetadata) : Bool :=
  0 < m.duration && 0 < m.fps && 0 < m.width && 0 < m.height
    && 0 < m.frameCount && 0 < m.fileSize

/-- The `Video` entity from `video.py`.  `datetime` fields are carried as their
ISO strings; `file_path` as its string form. -/
structure Video where
  id : String
  filePath : String
  name : String
  status : VideoStatus
  createdAt : String
  metadata : Option VideoMetadata := none
  damages : List Damage := []
  processedAt : Option String := none
  processingTime : Option ℚ := none
  errorMessage : Option String := none
  updatedAt : Option String := none
  deriving DecidableEq, Repr

/-- `damage.to_dict()` (damage.py 78-94): one flat record per damage, with
enum values as their string tokens. -/
structure DamageRec where
  id : String
  damageType : String
  severity : String
  confidence : ℚ
  bbX : ℚ
  bbY : ℚ
  bbWidth : ℚ
  bbHeight : ℚ
  frameNumber : Nat
  timestamp : ℚ
  description : Option String
  deriving DecidableEq, Repr

/-- The serialization of one `Damage` performed inside `_video_to_dict`. -/
def damageToDict (d : Damage) : DamageRec :=
  { id := d.id
    damageType := d.damageType.value
    severity := d.severity.value
    confidence := d.confidence
    bbX := d.boundingBox.x
    bbY := d.boundingBox.y
    bbWidth := d.boundingBox.width
    bbHeight := d.boundingBox.height
    frameNumber := d.frameNumber
    timestamp := d.timestamp
    description := d.description }

/-- The `metadata` sub-record written by
`JsonVideoRepository._video_to_dict` (json_video_repository.py 170-180). -/
structure MetadataRec where
  duration : ℚ
  fps : ℚ
  width : Int
  height : Int
  frameCount : Int
  fileSize : Int
  format : String
  codec : String
  bitrate : Int
  deriving DecidableEq, Repr

/-- The record written by `JsonVideoRepository._video_to_dict`
(json_video_repository.py 161-182).  Note that `error_message`,
`processed_at` and `processing_time` have no key in this record. -/
structure VideoRec where
  id : String
  name : String
  filePath : String
  status : String
  createdAt : String
  updatedAt : Option String
  metadata : Option MetadataRec
  damages : List DamageRec
  deriving DecidableEq, Repr

/-- `JsonVideoRepository._video_to_dict` (json_video_repository.py 161-182). -/
def videoToDict (v : Video) : VideoRec :=
  { id := v.id
    name := v.name
    filePath := v.filePath
    status := v.status.value
    createdAt := v.createdAt
    updatedAt := v.updatedAt
    metadata := v.metadata.map fun m =>
      { duration := m.duration
        fps := m.fps
        width := m.width
        height := m.height
        frameCount := m.frameCount
        fileSize := m.fileSize
        format := m.format.value
        codec := m.codec
        bitrate := m.bitrate }
    damages := v.damages.map damageToDict }

/-- `JsonVideoRepository._dict_to_video` (json_video_repository.py 184-214).
`fsExists` models `Path.exists()` and `suffixSupported` models the
`Video.__post_init__` suffix test, both evaluated on the stored path string;
the same two predicates govern the original construction of any `Video`
entity.  Faithful details: the `damages` field of the record is ignored and
the video is rebuilt with `damages=[]`; `error_message`, `processed_at` and
`processing_time` are never read (they default to `None`); unknown enum
tokens and failed `__post_init__` validations raise. -/
def dictToVideo (fsExists suffixSupported : String → Bool) (r : VideoRec) :
    Except String Video := do
  let metadata ← match r.metadata with
    | none => pure none
    | some m =>
      match VideoFormat.ofValue m.format with
      | none => Except.error "ValueError: not a valid VideoFormat"
      | some fmt =>
        let md : VideoMetadata :=
          { duration := m.duration, fps := m.fps, width := m.width
            height := m.height, frameCount := m.frameCount, format := fmt
            fileSize := m.fileSize, codec := m.codec, bitrate := m.bitrate }
        if md.valid then pure (some md)
        else Except.error "ValueError: invalid metadata"
  let status ← match VideoStatus.ofValue r.status with
    | some s => pure s
    | none => Except.error "ValueError: not a valid VideoStatus"
  if fsExists r.filePath = false then
    Except.error "FileNotFoundError"
  else if suffixSupported r.filePath = false then
    Except.error "ValueError: unsupported file format"
  else
    pure { id := r.id
           filePath := r.filePath
           name := r.name
           status := status
           createdAt := r.createdAt
           updatedAt := r.updatedAt
           metadata := metadata
           damages := [] }

/-- One raw detection as produced by the YOLO model inside
`detect_damages_in_frame`: a confidence, a class id and the `xyxy` corner
coordinates of the box. -/
structure RawBox where
  conf : ℚ
  classId : Nat
  x1 : ℚ
  y1 : ℚ
  x2 : ℚ
  y2 : ℚ
  deriving DecidableEq, Repr

/-- What the external calls inside the `try` block of
`detect_damages_in_frame` do on a given frame: the decode can yield `None`,
the inference call can raise, or the model yields a list of boxes. -/
inductive FrameOutcome
  | decodeFail
  | inferError (msg : String)
  | detections (boxes : List RawBox)
  deriving DecidableEq, Repr

/-- `self._class_mapping.get(class_id, DamageType.UNKNOWN)`
(yolo_damage_detector.py 29-35, 223). -/
def classMapping (classId : Nat) : DamageType :=
  match classId with
  | 0 => .scratch
  | 1 => .dent
  | 2 => .crack
  | 3 => .rust
  | 4 => .brokenPart
  | _ => .unknown

/-- The call `BoundingBox(x1=..., y1=..., x2=..., y2=...)`
(yolo_damage_detector.py 228-233).  The dataclass in `damage.py` declares the
fields `x`, `y`, `width`, `height`, so this call always raises
`TypeError: unexpected keyword argument` before any field validation runs. -/
def boundingBoxFromXYXY (_x1 _y1 _x2 _y2 : ℚ) : Except String BoundingBox :=
  Except.error "TypeError: BoundingBox.init got an unexpected keyword argument x1"

/-- The `Damage(...)` construction (yolo_damage_detector.py 239-247) including
the `Damage.__post_init__` validation of `damage.py` 63-68. -/
def mkDamage (id : String) (damageType : DamageType) (severity : DamageSeverity)
    (confidence : ℚ) (boundingBox : BoundingBox) (frameNumber : Nat) :
    Except String Damage :=
  if 0 ≤ confidence ∧ confidence ≤ 1 then
    Except.ok { id := id, damageType := damageType, severity := severity
                confidence := confidence, boundingBox := boundingBox
                frameNumber := frameNumber, timestamp := 0 }
  else
    Except.error "ValueError: confidence out of range"

/-- The per-box body of the detection loop in `detect_damages_in_frame`
(yolo_damage_detector.py 215-249), accumulating damages in order; the first
raised exception aborts the whole `try` block. -/
def buildDamages (frameNumber : Nat) : List RawBox → Except String (List Damage)
  | [] => Except.ok []
  | b :: rest => do
    let damageType := classMapping b.classId
    let bb ← boundingBoxFromXYXY b.x1 b.y1 b.x2 b.y2
    let severity ← determineSeverity bb b.conf
    let d ← mkDamage "uuid" damageType severity b.conf bb frameNumber
    let ds ← buildDamages frameNumber rest
    Except.ok (d :: ds)

/-- The `try` block of `detect_damages_in_frame` (yolo_damage_detector.py
202-251): a failed decode returns `[]`, a raising inference propagates, and
otherwise the damages are built box by box. -/
def frameTryBlock (frameNumber : Nat) : FrameOutcome → Except String (List Damage)
  | .decodeFail => Except.ok []
  | .inferError m => Except.error m
  | .detections boxes => buildDamages frameNumber boxes

/-- `YOLODamageDetector.detect_damages_in_frame` (yolo_damage_detector.py
197-255): raises `RuntimeError` when the model is not loaded; otherwise the
whole body runs inside `try`, and any exception is caught and the empty list
returned. -/
def detectDamagesInFrame (modelLoaded : Bool) (frameNumber : Nat)
    (outcome : FrameOutcome) : Except String (List Damage) :=
  if modelLoaded then
    match frameTryBlock frameNumber outcome with
    | Except.ok ds => Except.ok ds
    | Except.error _ => Except.ok []
  else
    Except.error "RuntimeError: model not loaded"

/-- Python dict update `m[k] = m.get(k, 0) + 1` on an insertion-ordered dict
modelled as an association list with distinct keys. -/
def bumpCount : List (String × Nat) → String → List (String × Nat)
  | [], k => [(k, 1)]
  | (k', v) :: rest, k =>
    if k' = k then (k', v + 1) :: rest else (k', v) :: bumpCount rest k

/-- Sum of the counts of a counting dict. -/
def sumCounts (m : List (String × Nat)) : Nat := (m.map Prod.snd).sum

/-- The mutable loop state of `detect_damages_in_video`
(yolo_damage_detector.py 110-114, 125). -/
structure AggState where
  damages : List Damage
  totalConfidence : ℚ
  damagesByType : List (String × Nat)
  damagesBySeverity : List (String × Nat)
  framesProcessed : Nat
  deriving Repr

/-- The initial loop state. -/
def AggState.init : AggState :=
  { damages := [], totalConfidence := 0, damagesByType := []
    damagesBySeverity := [], framesProcessed := 0 }

/-- The per-damage body of the inner loop of `detect_damages_in_video`
(yolo_damage_detector.py 139-151): stamp the timestamp
`frame_number / fps` (0 when `fps ≤ 0`), append, and update the running
totals and counting dicts. -/
def processDamage (fps : ℚ) (frameNumber : Nat) (st : AggState) (d : Damage) :
    AggState :=
  let ts := if fps > 0 then (frameNumber : ℚ) / fps else 0
  { damages := st.damages ++ [{ d with timestamp := ts }]
    totalConfidence := st.totalConfidence + d.confidence
    damagesByType := bumpCount st.damagesByType d.damageType.value
    damagesBySeverity := bumpCount st.damagesBySeverity d.severity.value
    framesProcessed := st.framesProcessed }

/-- One iteration of the frame loop (yolo_damage_detector.py 127-154):
process the frame's damages, then `frames_processed += 1`. -/
def processFrame (fps : ℚ) (st : AggState) (frameNumber : Nat)
    (frameDamages : List Damage) : AggState :=
  let st' := frameDamages.foldl (processDamage fps frameNumber) st
  { st' with framesProcessed := st'.framesProcessed + 1 }

/-- The whole frame loop, with `frame_number` counting up from 0.  The input
`frames` is the sequence of per-frame damage lists returned by
`detect_damages_in_frame`. -/
def runFrames (fps : ℚ) (frames : List (List Damage)) : AggState :=
  frames.enum.foldl (fun st p => processFrame fps st p.1 p.2) AggState.init

/-- `DetectionStatistics` from `detection_result.py`. -/
structure DetectionStatistics where
  totalFramesProcessed : Nat
  totalDamagesDetected : Nat
  damagesByType : List (String × Nat)
  damagesBySeverity : List (String × Nat)
  averageConfidence : ℚ
  processingTime : ℚ
  framesPerSecond : ℚ
  deriving Repr

/-- The statistics finalization of `detect_damages_in_video`
(yolo_damage_detector.py 166-180):
`average_confidence = total_confidence / len(damages) if damages else 0.0`,
`frames_per_second = frames_processed / processing_time
 if processing_time > 0 else 0.0`. -/
def finalizeStats (st : AggState) (processingTime : ℚ) : DetectionStatistics :=
  { totalFramesProcessed := st.framesProcessed
    totalDamagesDetected := st.damages.length
    damagesByType := st.damagesByType
    damagesBySeverity := st.damagesBySeverity
    averageConfidence :=
      if st.damages ≠ [] then st.totalConfidence / st.damages.length else 0
    processingTime := processingTime
    framesPerSecond :=
      if processingTime > 0 then (st.framesProcessed : ℚ) / processingTime
      else 0 }

/-- The `(damages, statistics)` payload of the `DetectionResult` built at the
end of `detect_damages_in_video` (yolo_damage_detector.py 183-191). -/
structure VideoDetection where
  damages : List Damage
  statistics : DetectionStatistics
  deriving Repr

/-- `detect_damages_in_video` after the frame loop: collected damages plus the
finalized statistics. -/
def detectDamagesInVideo (fps : ℚ) (frames : List (List Damage))
    (processingTime : ℚ) : VideoDetection :=
  let st := runFrames fps frames
  { damages := st.damages, statistics := finalizeStats st processingTime }

/-- The payload of a `DetectionResult` as seen by
`ProcessVideoUseCase.execute`. -/
structure DetectionRes where
  damages : List Damage
  annotatedVideoPath : Option String := none
  deriving DecidableEq, Repr

instance {ε α : Type} [DecidableEq ε] [DecidableEq α] : DecidableEq (Except ε α) :=
  fun x y =>
    match x, y with
    | Except.ok a, Except.ok b =>
      if h : a = b then isTrue (by rw [h])
      else isFalse (by intro hc; cases hc; exact h rfl)
    | Except.error e, Except.error f =>
      if h : e = f then isTrue (by rw [h])
      else isFalse (by intro hc; cases hc; exact h rfl)
    | Except.ok _, Except.error _ => isFalse (by intro hc; cases hc)
    | Except.error _, Except.ok _ => isFalse (by intro hc; cases hc)

/-- The outcomes of the awaited collaborator calls made by
`ProcessVideoUseCase.execute` inside its `try` block
(process_video_use_case.py 63-100).  Each field is what the corresponding
call would do when reached; `set_confidence_threshold` failures are part of
the `detect` outcome. -/
structure ExecEnv where
  saveVideo : Except String Unit
  detect : Except String DetectionRes
  render : Except String String
  updateCompleted : Except String Unit
  saveDetection : Except String Unit
  updateFailed : Except String Unit
  deriving Repr

/-- A repository write observed during a run of `execute`. -/
inductive WriteEvent
  | savedVideo (v : Video)
  | updatedVideo (v : Video)
  | savedDetection (r : DetectionRes)
  deriving DecidableEq, Repr

/-- The outcome of a run of `execute`: what is returned or raised, the final
in-memory `Video` entity, and the repository writes that happened. -/
structure ExecOut where
  result : Except String DetectionRes
  video : Video
  writes : List WriteEvent
  deriving Repr

/-- The `try` block of `execute` (process_video_use_case.py 63-94), started
with the freshly built `PROCESSING` video `v0`: save the video, detect,
optionally annotate (only when requested and damages exist), mark the video
`COMPLETED` with the damages, update it, and save the detection result.  On
success it returns the result, the mutated video and the writes; on the first
exception it returns the error, the video as mutated so far, and the writes
so far. -/
def execTryBlock (v0 : Video) (env : ExecEnv) (createAnnotated : Bool) :
    Except (String × Video × List WriteEvent) ExecOut :=
  match env.saveVideo with
  | Except.error e => Except.error (e, v0, [])
  | Except.ok _ =>
    let w0 := [WriteEvent.savedVideo v0]
    match env.detect with
    | Except.error e => Except.error (e, v0, w0)
    | Except.ok r =>
      let annotated : Except String DetectionRes :=
        if createAnnotated ∧ r.damages ≠ [] then
          match env.render with
          | Except.error e => Except.error e
          | Except.ok p => Except.ok { r with annotatedVideoPath := some p }
        else Except.ok r
      match annotated with
      | Except.error e => Except.error (e, v0, w0)
      | Except.ok r' =>
        let v1 := { v0 with status := VideoStatus.completed, damages := r'.damages }
        match env.updateCompleted with
        | Except.error e => Except.error (e, v1, w0)
        | Except.ok _ =>
          let w1 := w0 ++ [WriteEvent.updatedVideo v1]
          match env.saveDetection with
          | Except.error e => Except.error (e, v1, w1)
          | Except.ok _ =>
            Except.ok { result := Except.ok r', video := v1
                        writes := w1 ++ [WriteEvent.savedDetection r'] }

/-- The `except` handler of `execute` (process_video_use_case.py 96-100):
`video.status = FAILED; await update(video); raise e`.  It only assigns the
status (the error message is not stored and `mark_as_failed` is not called),
and the `update` call is not guarded, so if that write raises, its exception
replaces the original one. -/
def execHandler (e : String) (v : Video) (ws : List WriteEvent)
    (env : ExecEnv) : ExecOut :=
  let vf := { v with status := VideoStatus.failed }
  match env.updateFailed with
  | Except.ok _ =>
    { result := Except.error e, video := vf
      writes := ws ++ [WriteEvent.updatedVideo vf] }
  | Except.error e2 =>
    { result := Except.error e2, video := vf, writes := ws }

/-- `ProcessVideoUseCase.execute` from the point where the `PROCESSING`
video entity `v0` has been built (process_video_use_case.py 63-100). -/
def execute (v0 : Video) (env : ExecEnv) (createAnnotated : Bool) : ExecOut :=
  match execTryBlock v0 env createAnnotated with
  | Except.ok out => out
  | Except.error (e, v, ws) => execHandler e v ws env

/-- Whether a detection result was persisted during a run. -/
def ExecOut.detectionPersisted (o : ExecOut) : Bool :=
  o.writes.any fun w =>
    match w with
    | WriteEvent.savedDetection _ => true
    | _ => false

/-- The errors raised by `VideoProcessingAppService`
(video_processing_app_service.py): the concurrency conflict, the three
precheck failures, and any error propagated out of the use case. -/
inductive VPError
  | alreadyProcessing (path : String)
  | fileNotFound (path : String)
  | unsupportedFormat (path : String)
  | fileTooLarge (path : String)
  | execFailure (msg : String)
  deriving DecidableEq, Repr

/-- One submission as the app service sees it: the path string, what the
file-system prechecks would say about it, and what
`process_video_use_case.execute` would return if dispatched. -/
structure PathItem where
  path : String
  fileExists : Bool
  supportedFormat : Bool
  sizeOk : Bool
  outcome : Except String DetectionRes
  deriving DecidableEq, Repr

/-- The result of `process_single_video`: the returned-or-raised value, the
admission set (`_processing_videos` keys) after the call, and whether the
use case was actually dispatched. -/
structure SubmitOut where
  result : Except VPError DetectionRes
  admitted : List String
  dispatched : Bool
  deriving DecidableEq, Repr

/-- `VideoProcessingAppService.process_single_video`
(video_processing_app_service.py 35-73): reject when the path is already in
`_processing_videos`; then the existence, format and size prechecks; then
insert the path, await the use case, and pop the path in `finally` on every
exit. -/
def processSingleVideo (admitted : List String) (item : PathItem) : SubmitOut :=
  if item.path ∈ admitted then
    { result := Except.error (VPError.alreadyProcessing item.path)
      admitted := admitted, dispatched := false }
  else if item.fileExists = false then
    { result := Except.error (VPError.fileNotFound item.path)
      admitted := admitted, dispatched := false }
  else if item.supportedFormat = false then
    { result := Except.error (VPError.unsupportedFormat item.path)
      admitted := admitted, dispatched := false }
  else if item.sizeOk = false then
    { result := Except.error (VPError.fileTooLarge item.path)
      admitted := admitted, dispatched := false }
  else
    let inFlight := item.path :: admitted
    let result : Except VPError DetectionRes :=
      match item.outcome with
      | Except.ok r => Except.ok r
      | Except.error m => Except.error (VPError.execFailure m)
    { result := result, admitted := inFlight.erase item.path
      dispatched := true }

/-- The `asyncio.gather` over the per-path tasks created by
`process_multiple_videos` (video_processing_app_service.py 88-95), modelled
as the tasks running one after the other, each threading the admission set;
`return_exceptions=True` means every task yields a value.  Returns the
per-task results in input order, the final admission set, and the paths that
were actually dispatched to the use case. -/
def runTasks (admitted : List String) :
    List PathItem → List (Except VPError DetectionRes) × List String × List String
  | [] => ([], admitted, [])
  | item :: rest =>
    ((processSingleVideo admitted item).result
        :: (runTasks (processSingleVideo admitted item).admitted rest).1,
     (runTasks (processSingleVideo admitted item).admitted rest).2.1,
     (if (processSingleVideo admitted item).dispatched then [item.path] else [])
        ++ (runTasks (processSingleVideo admitted item).admitted rest).2.2)

/-- The pre-validation loop of `process_multiple_videos`
(video_processing_app_service.py 80-85): the first path failing the
existence or format check raises; the size check is not part of it. -/
def precheckBatch : List PathItem → Option VPError
  | [] => none
  | item :: rest =>
    if item.fileExists = false then some (VPError.fileNotFound item.path)
    else if item.supportedFormat = false then some (VPError.unsupportedFormat item.path)
    else precheckBatch rest

/-- The result of `process_multiple_videos`: the returned-or-raised value,
the final admission set, and the dispatched paths. -/
structure BatchOut where
  result : Except VPError (List DetectionRes)
  admitted : List String
  dispatched : List String
  deriving DecidableEq, Repr

/-- `VideoProcessingAppService.process_multiple_videos`
(video_processing_app_service.py 75-118): pre-validate every path, then run
all tasks and return only the successful results (exceptions among the
gathered results are logged and dropped, lines 101-114). -/
def processMultipleVideos (admitted : List String) (items : List PathItem) :
    BatchOut :=
  match precheckBatch items with
  | some e => { result := Except.error e, admitted := admitted, dispatched := [] }
  | none =>
    { result := Except.ok ((runTasks admitted items).1.filterMap Except.toOption)
      admitted := (runTasks admitted items).2.1
      dispatched := (runTasks admitted items).2.2 }

/-- A stored video record as `JsonVideoRepository.find_by_status` reads it:
the `status` key holds the string token written by `_video_to_dict`. -/
structure StoredVideo where
  id : String
  filePath : String
  status : String
  updatedAt : Option String := none
  deriving DecidableEq, Repr

/-- The argument that reaches `find_by_status`: either a plain string or a
`VideoStatus` enum member.  `VideoProcessingAppService.get_videos_by_status`
passes the enum member itself (video_processing_app_service.py 155-162 and
202-205). -/
inductive StatusArg
  | strArg (s : String)
  | enumArg (v : VideoStatus)
  deriving DecidableEq, Repr

/-- Python `==` between the stored status string and the argument
(json_video_repository.py 93, `video_data['status'] == status`): two strings
compare by content; a string compared with an `Enum` member is `False`
(neither type defines cross-type equality, so Python falls back to identity). -/
def pyStatusEq (stored : String) : StatusArg → Bool
  | .strArg s => stored == s
  | .enumArg _ => false

/-- `JsonVideoRepository.find_by_status` (json_video_repository.py 86-101):
keep the records whose stored status compares `==` to the argument. -/
def findByStatus (records : List StoredVideo) (arg : StatusArg) : List StoredVideo :=
  records.filter fun r => pyStatusEq r.status arg

/-- Replacing the record with the given id (the repository `update`). -/
def updateStored (records : List StoredVideo) (v : StoredVideo) : List StoredVideo :=
  records.map fun r => if r.id = v.id then v else r

/-- `VideoProcessingAppService.cleanup_failed_videos`
(video_processing_app_service.py 202-229): fetch the `PROCESSING` records via
`get_videos_by_status(VideoStatus.PROCESSING)` — which forwards the enum
member to `find_by_status` — then, for each whose path is not in
`_processing_videos`, set its status to `failed`, stamp `updated_at`, write it
back and count it.  Returns the updated store and the count. -/
def cleanupFailedVideos (records : List StoredVideo) (admitted : List String)
    (now : String) : List StoredVideo × Nat :=
  let processing := findByStatus records (StatusArg.enumArg VideoStatus.processing)
  processing.foldl
    (fun acc v =>
      if v.filePath ∈ admitted then acc
      else
        (updateStored acc.1 { v with status := "failed", updatedAt := some now },
         acc.2 + 1))
    (records, 0)

/-! Concrete sample values used by the closed witness and counterexample
theorems below. -/

/-- A sample bounding box of area 1200 (30 × 40). -/
def bb1200 : BoundingBox := { x := 0, y := 0, width := 30, height := 40 }

/-- A sample bounding box of area 6000 (60 × 100). -/
def bb6000 : BoundingBox := { x := 0, y := 0, width := 60, height := 100 }

/-- A sample bounding box of area 500 (20 × 25). -/
def bb500 : BoundingBox := { x := 0, y := 0, width := 20, height := 25 }

/-- A sample damage with confidence 0.9. -/
def dmgHigh : Damage :=
  { id := "d1", damageType := DamageType.scratch, severity := DamageSeverity.high
    confidence := 9/10, boundingBox := bb1200, frameNumber := 0, timestamp := 0 }

/-- A sample damage with confidence 0.5. -/
def dmgHalf : Damage :=
  { id := "d2", damageType := DamageType.dent, severity := DamageSeverity.low
    confidence := 1/2, boundingBox := bb500, frameNumber := 1, timestamp := 0 }

/-- A sample freshly created `PROCESSING` video entity. -/
def exVideo0 : Video :=
  { id := "v1", filePath := "/videos/a.mp4", name := "a.mp4"
    status := VideoStatus.processing, createdAt := "2024-01-01T00:00:00" }

/-- Collaborator outcomes where detection raises and the `FAILED`-status
write also raises. -/
def envDetectFailWriteFail : ExecEnv :=
  { saveVideo := Except.ok (), detect := Except.error "boom"
    render := Except.ok "/out/annotated_a.mp4", updateCompleted := Except.ok ()
    saveDetection := Except.ok (), updateFailed := Except.error "disk full" }

/-- Collaborator outcomes where detection raises and the `FAILED`-status
write succeeds. -/
def envDetectFailWriteOk : ExecEnv :=
  { saveVideo := Except.ok (), detect := Except.error "boom"
    render := Except.ok "/out/annotated_a.mp4", updateCompleted := Except.ok ()
    saveDetection := Except.ok (), updateFailed := Except.ok () }

/-- A detection result with one damage. -/
def resWithDamage : DetectionRes := { damages := [dmgHigh] }

/-- An empty detection result. -/
def resEmpty : DetectionRes := { damages := [] }

/-- Collaborator outcomes where detection succeeds with damages and the
annotated-video renderer raises. -/
def envRenderFail : ExecEnv :=
  { saveVideo := Except.ok (), detect := Except.ok resWithDamage
    render := Except.error "render boom", updateCompleted := Except.ok ()
    saveDetection := Except.ok (), updateFailed := Except.ok () }

/-- A video entity carrying an error message, used to probe round-trip
fidelity. -/
def exVideoErr : Video :=
  { id := "v6", filePath := "/videos/a.mp4", name := "a.mp4"
    status := VideoStatus.failed, createdAt := "2024-01-01T00:00:00"
    errorMessage := some "boom" }

/-- Sample valid metadata. -/
def exMeta : VideoMetadata :=
  { duration := 10, fps := 30, width := 640, height := 480, frameCount := 300
    format := VideoFormat.mp4, fileSize := 1000 }

/-- A video entity with metadata and an updated-at stamp. -/
def exVideoMeta : Video :=
  { id := "v7", filePath := "/videos/b.mp4", name := "b.mp4"
    status := VideoStatus.completed, createdAt := "2024-01-02T00:00:00"
    metadata := some exMeta, updatedAt := some "2024-01-02T01:00:00" }

/-- A batch item whose processing fails mid-run. -/
def itemFailing : PathItem :=
  { path := "a.mp4", fileExists := true, supportedFormat := true, sizeOk := true
    outcome := Except.error "boom" }

/-- A batch item whose processing succeeds. -/
def itemOk : PathItem :=
  { path := "b.mp4", fileExists := true, supportedFormat := true, sizeOk := true
    outcome := Except.ok resEmpty }

/-- A submission item used by the admission-control witness. -/
def itemPlain : PathItem :=
  { path := "c.mp4", fileExists := true, supportedFormat := true, sizeOk := true
    outcome := Except.ok resEmpty }

/-- Shorthand for the statistics snapshot finalized by a video-level run. -/
def videoStatistics (fps : ℚ) (frames : List (List Damage)) (processingTime : ℚ) :
    DetectionStatistics :=
  (detectDamagesInVideo fps frames processingTime).statistics

/-! ### Aggregation-loop lemmas -/

theorem sumCounts_bumpCount (m : List (String × Nat)) (k : String) :
    sumCounts (bumpCount m k) = sumCounts m + 1 := by
  induction m with
  | nil => rfl
  | cons p rest ih =>
    obtain ⟨k', v⟩ := p
    by_cases h : k' = k
    · simp only [bumpCount, if_pos h, sumCounts, List.map_cons, List.sum_cons]
      omega
    · simp only [bumpCount, if_neg h, sumCounts, List.map_cons, List.sum_cons] at ih ⊢
      omega

theorem processFrame_damages (fps : ℚ) (st : AggState) (n : Nat)
    (ds : List Damage) :
    (processFrame fps st n ds).damages
      = (ds.foldl (processDamage fps n) st).damages := rfl

theorem processFrame_totalConfidence (fps : ℚ) (st : AggState) (n : Nat)
    (ds : List Damage) :
    (processFrame fps st n ds).totalConfidence
      = (ds.foldl (processDamage fps n) st).totalConfidence := rfl

theorem processFrame_damagesByType (fps : ℚ) (st : AggState) (n : Nat)
    (ds : List Damage) :
    (processFrame fps st n ds).damagesByType
      = (ds.foldl (processDamage fps n) st).damagesByType := rfl

theorem processFrame_framesProcessed (fps : ℚ) (st : AggState) (n : Nat)
    (ds : List Damage) :
    (processFrame fps st n ds).framesProcessed
      = (ds.foldl (processDamage fps n) st).framesProcessed + 1 := rfl

theorem foldl_processDamage_spec (fps : ℚ) (n : Nat) (ds : List Damage)
    (st : AggState) :
    ((ds.foldl (processDamage fps n) st).damages.length
        = st.damages.length + ds.length)
    ∧ ((ds.foldl (processDamage fps n) st).totalConfidence
        = st.totalConfidence + (ds.map Damage.confidence).sum)
    ∧ (sumCounts (ds.foldl (processDamage fps n) st).damagesByType
        = sumCounts st.damagesByType + ds.length)
    ∧ ((ds.foldl (processDamage fps n) st).framesProcessed
        = st.framesProcessed) := by
  induction ds generalizing st with
  | nil => simp
  | cons d rest ih =>
    obtain ⟨h1, h2, h3, h4⟩ := ih (processDamage fps n st d)
    refine ⟨?_, ?_, ?_, ?_⟩
    · rw [List.foldl_cons, h1]
      simp [processDamage]
      omega
    · rw [List.foldl_cons, h2]
      simp [processDamage]
      ring
    · rw [List.foldl_cons, h3]
      simp [processDamage, sumCounts_bumpCount]
      omega
    · rw [List.foldl_cons, h4]
      rfl

theorem foldl_processFrame_spec (fps : ℚ) (l : List (Nat × List Damage))
    (st : AggState) :
    ((l.foldl (fun s p => processFrame fps s p.1 p.2) st).damages.length
        = st.damages.length + ((l.map Prod.snd).flatten).length)
    ∧ ((l.foldl (fun s p => processFrame fps s p.1 p.2) st).totalConfidence
        = st.totalConfidence + (((l.map Prod.snd).flatten).map Damage.confidence).sum)
    ∧ (sumCounts (l.foldl (fun s p => processFrame fps s p.1 p.2) st).damagesByType
        = sumCounts st.damagesByType + ((l.map Prod.snd).flatten).length)
    ∧ ((l.foldl (fun s p => processFrame fps s p.1 p.2) st).framesProcessed
        = st.framesProcessed + l.length) := by
  induction l generalizing st with
  | nil => simp
  | cons p rest ih =>
    obtain ⟨n, ds⟩ := p
    obtain ⟨g1, g2, g3, g4⟩ := foldl_processDamage_spec fps n ds st
    obtain ⟨h1, h2, h3, h4⟩ := ih (processFrame fps st n ds)
    refine ⟨?_, ?_, ?_, ?_⟩
    · rw [List.foldl_cons, h1, processFrame_damages, g1]
      simp only [List.map_cons, List.flatten_cons, List.length_append]
      omega
    · rw [List.foldl_cons, h2, processFrame_totalConfidence, g2]
      simp only [List.map_cons, List.flatten_cons, List.map_append,
        List.sum_append]
      ring
    · rw [List.foldl_cons, h3, processFrame_damagesByType, g3]
      simp only [List.map_cons, List.flatten_cons, List.length_append]
      omega
    · rw [List.foldl_cons, h4, processFrame_framesProcessed, g4]
      simp only [List.length_cons]
      omega

theorem runFrames_spec (fps : ℚ) (frames : List (List Damage)) :
    (runFrames fps frames).damages.length = frames.flatten.length
    ∧ (runFrames fps frames).totalConfidence
        = (frames.flatten.map Damage.confidence).sum
    ∧ sumCounts (runFrames fps frames).damagesByType = frames.flatten.length
    ∧ (runFrames fps frames).framesProcessed = frames.length := by
  have h := foldl_processFrame_spec fps frames.enum AggState.init
  simpa [runFrames, AggState.init, sumCounts, List.enum_map_snd,
    List.enum_length] using h

/-! ### Claim theorems -/

/-- Claim C1.  The spec table says `severity(area, confidence)` is a total
function into {MINOR, MODERATE, SEVERE, CRITICAL}, with
area=1200, confidence=0.85 ↦ SEVERE, area=6000, confidence=0.9 ↦ CRITICAL,
and area=500, confidence=0.5 ↦ MINOR.  On the code this fails:
`_determine_severity` names `DamageSeverity.SEVERE`, `DamageSeverity.MODERATE`
and `DamageSeverity.MINOR`, none of which is a member of the enum in
`damage.py` (its members are LOW, MEDIUM, HIGH, CRITICAL), so every branch
except the CRITICAL cell raises `AttributeError`.  This theorem evaluates the
embedded classifier at the three example inputs of the claim. -/
theorem determineSeverity_attribute_error_C1 :
    determineSeverity bb1200 (85/100) =
      Except.error "AttributeError: type object DamageSeverity has no attribute SEVERE"
    ∧ determineSeverity bb6000 (9/10) = Except.ok DamageSeverity.critical
    ∧ determineSeverity bb500 (1/2) =
      Except.error "AttributeError: type object DamageSeverity has no attribute MINOR" := by
  refine ⟨?_, ?_, ?_⟩ <;>
    first
    | (norm_num [determineSeverity, BoundingBox.area, bb1200]; rfl)
    | (norm_num [determineSeverity, BoundingBox.area, bb6000]; rfl)
    | (norm_num [determineSeverity, BoundingBox.area, bb500]; rfl)

/-- Claim C4.  The claim says one invocation of the orphan reconciliation
transitions every persisted `PROCESSING` record with no matching admission
entry to `FAILED` and returns the repaired count.  On the code,
`cleanup_failed_videos` can never repair anything: the scan goes through
`find_by_status`, which compares the stored status string token against the
`VideoStatus` enum member it was handed, and a Python `str` never compares
equal to an `Enum` member, so the list of `PROCESSING` records is always
empty.  Consequently the store is returned unchanged and the count is 0, for
every store content and every admission set. -/
theorem cleanupFailedVideos_never_repairs_C4 (records : List StoredVideo)
    (admitted : List String) (now : String) :
    cleanupFailedVideos records admitted now = (records, 0) := by
  simp [cleanupFailedVideos, findByStatus, pyStatusEq]

/-- Claim C9.  A single-video submission fails with the concurrency-conflict
error exactly when the path is currently admitted; in every case
(conflict, precheck failure, or a dispatched run of any outcome) the
admission set after the call equals the one before it, so a path that was not
admitted before the call is admittable again after it. -/
theorem processSingleVideo_admission_C9 (admitted : List String)
    (item : PathItem) :
    ((processSingleVideo admitted item).result =
        Except.error (VPError.alreadyProcessing item.path) ↔ item.path ∈ admitted)
    ∧ (processSingleVideo admitted item).admitted = admitted := by
  by_cases hmem : item.path ∈ admitted
  · simp [processSingleVideo, hmem]
  · cases hex : item.fileExists
    · simp [processSingleVideo, hmem, hex]
    · cases hfmt : item.supportedFormat
      · simp [processSingleVideo, hmem, hex, hfmt]
      · cases hsz : item.sizeOk
        · simp [processSingleVideo, hmem, hex, hfmt, hsz]
        · cases hout : item.outcome <;>
            simp [processSingleVideo, hmem, hex, hfmt, hsz, hout,
              List.erase_cons_head]

/-- Claim C10.  With the model loaded, per-frame detection never raises:
whatever the decode, the inference and the per-box constructions do, the call
returns a list; a frame whose inference raises contributes the empty list;
and a frame contributing the empty list leaves the collected damages of the
video-level loop unchanged (only the frame counter advances), so the run
completes as if the frame were damage-free. -/
theorem detectDamagesInFrame_never_raises_C10 :
    (∀ (outcome : FrameOutcome) (n : Nat),
        ∃ l, detectDamagesInFrame true n outcome = Except.ok l)
    ∧ (∀ (m : String) (n : Nat),
        detectDamagesInFrame true n (FrameOutcome.inferError m) = Except.ok [])
    ∧ (∀ (fps : ℚ) (st : AggState) (i : Nat),
        (processFrame fps st i []).damages = st.damages) := by
  refine ⟨fun outcome n => ?_, fun m n => rfl, fun fps st i => rfl⟩
  cases h : frameTryBlock n outcome with
  | ok ds => exact ⟨ds, by simp [detectDamagesInFrame, h]⟩
  | error e => exact ⟨[], by simp [detectDamagesInFrame, h]⟩

/-- Claim C7.  For every finalized statistics snapshot: when no damages were
observed the average confidence is exactly 0; when damages were observed it
equals the sum of the observed confidences divided by the damage count and —
given the entity invariant that each confidence lies in [0,1] — itself lies
in [0,1]; and the frames-per-second figure is frames processed divided by
processing time when that time is positive, else exactly 0. -/
theorem videoStatistics_averages_C7 (fps processingTime : ℚ)
    (frames : List (List Damage))
    (hconf : ∀ d ∈ frames.flatten, 0 ≤ d.confidence ∧ d.confidence ≤ 1) :
    ((videoStatistics fps frames processingTime).totalDamagesDetected = 0 →
        (videoStatistics fps frames processingTime).averageConfidence = 0)
    ∧ (0 < (videoStatistics fps frames processingTime).totalDamagesDetected →
        (videoStatistics fps frames processingTime).averageConfidence
            = (frames.flatten.map Damage.confidence).sum
              / ((videoStatistics fps frames processingTime).totalDamagesDetected : ℚ)
          ∧ 0 ≤ (videoStatistics fps frames processingTime).averageConfidence
          ∧ (videoStatistics fps frames processingTime).averageConfidence ≤ 1)
    ∧ (0 < processingTime →
        (videoStatistics fps frames processingTime).framesPerSecond
          = ((videoStatistics fps frames processingTime).totalFramesProcessed : ℚ)
            / processingTime)
    ∧ (processingTime ≤ 0 →
        (videoStatistics fps frames processingTime).framesPerSecond = 0) := by
  obtain ⟨hlen, htc, hsum, hfr⟩ := runFrames_spec fps frames
  have hstats : videoStatistics fps frames processingTime
      = finalizeStats (runFrames fps frames) processingTime := rfl
  refine ⟨?_, ?_, ?_, ?_⟩
  · intro h0
    rw [hstats] at h0 ⊢
    simp only [finalizeStats] at h0 ⊢
    have : (runFrames fps frames).damages = [] := List.length_eq_zero.mp h0
    simp [this]
  · intro hpos
    rw [hstats] at hpos ⊢
    simp only [finalizeStats] at hpos ⊢
    have hne : (runFrames fps frames).damages ≠ [] := by
      intro h
      rw [h] at hpos
      simp at hpos
    have hcast : (0 : ℚ) < ((runFrames fps frames).damages.length : ℚ) := by
      exact_mod_cast hpos
    have hsumconf : (frames.flatten.map Damage.confidence).sum
        ≤ ((runFrames fps frames).damages.length : ℚ) := by
      have hle : (frames.flatten.map Damage.confidence).sum
          ≤ (frames.flatten.map Damage.confidence).length • (1 : ℚ) := by
        refine List.sum_le_card_nsmul _ 1 ?_
        intro x hx
        obtain ⟨d, hd, hdx⟩ := List.mem_map.mp hx
        rw [← hdx]
        exact (hconf d hd).2
      rw [List.length_map, nsmul_eq_mul, mul_one] at hle
      rw [hlen]
      exact_mod_cast hle
    have hsumnn : 0 ≤ (frames.flatten.map Damage.confidence).sum := by
      refine List.sum_nonneg ?_
      intro x hx
      obtain ⟨d, hd, hdx⟩ := List.mem_map.mp hx
      rw [← hdx]
      exact (hconf d hd).1
    have havg :
        (if (runFrames fps frames).damages ≠ [] then
            (runFrames fps frames).totalConfidence
              / ((runFrames fps frames).damages.length : ℚ)
          else 0)
          = (frames.flatten.map Damage.confidence).sum
            / ((runFrames fps frames).damages.length : ℚ) := by
      rw [if_pos hne, htc]
    rw [havg]
    refine ⟨rfl, ?_, ?_⟩
    · exact div_nonneg hsumnn (le_of_lt hcast)
    · rw [div_le_one hcast]
      exact hsumconf
  · intro hpt
    rw [hstats]
    simp [finalizeStats, hpt]
  · intro hpt
    rw [hstats]
    simp [finalizeStats, not_lt.mpr hpt]

/-- Claim C7, witness: a concrete run with one damage of confidence 1/2 in a
single frame, fps 30 and processing time 2 satisfies the hypothesis and the
conclusion. -/
theorem videoStatistics_averages_C7_witness :
    (∀ d ∈ [[dmgHalf]].flatten, 0 ≤ d.confidence ∧ d.confidence ≤ 1)
    ∧ (((videoStatistics 30 [[dmgHalf]] 2).totalDamagesDetected = 0 →
        (videoStatistics 30 [[dmgHalf]] 2).averageConfidence = 0)
      ∧ (0 < (videoStatistics 30 [[dmgHalf]] 2).totalDamagesDetected →
          (videoStatistics 30 [[dmgHalf]] 2).averageConfidence
              = ([[dmgHalf]].flatten.map Damage.confidence).sum
                / ((videoStatistics 30 [[dmgHalf]] 2).totalDamagesDetected : ℚ)
            ∧ 0 ≤ (videoStatistics 30 [[dmgHalf]] 2).averageConfidence
            ∧ (videoStatistics 30 [[dmgHalf]] 2).averageConfidence ≤ 1)
      ∧ (0 < (2 : ℚ) →
          (videoStatistics 30 [[dmgHalf]] 2).framesPerSecond
            = ((videoStatistics 30 [[dmgHalf]] 2).totalFramesProcessed : ℚ) / 2)
      ∧ ((2 : ℚ) ≤ 0 →
          (videoStatistics 30 [[dmgHalf]] 2).framesPerSecond = 0)) :=
  ⟨by intro d hd; simp only [List.flatten, List.append_nil, List.mem_singleton] at hd;
      rw [hd]; constructor <;> norm_num [dmgHalf],
   videoStatistics_averages_C7 30 2 [[dmgHalf]]
     (by intro d hd; simp only [List.flatten, List.append_nil, List.mem_singleton] at hd;
         rw [hd]; constructor <;> norm_num [dmgHalf])⟩

/-- Claim C8.  For every video-level detection run, the statistics'
total-damages figure equals the length of the collected damages list, and the
per-type counts sum to that same total (each observed damage increments
exactly one per-type count). -/
theorem videoDetection_counts_C8 (fps processingTime : ℚ)
    (frames : List (List Damage)) :
    (detectDamagesInVideo fps frames processingTime).statistics.totalDamagesDetected
      = (detectDamagesInVideo fps frames processingTime).damages.length
    ∧ sumCounts
        (detectDamagesInVideo fps frames processingTime).statistics.damagesByType
      = (detectDamagesInVideo fps frames processingTime).statistics.totalDamagesDetected := by
  obtain ⟨hlen, htc, hsum, hfr⟩ := runFrames_spec fps frames
  refine ⟨rfl, ?_⟩
  show sumCounts (runFrames fps frames).damagesByType
      = (runFrames fps frames).damages.length
  rw [hsum, hlen]

theorem execTryBlock_error_errorMessage (v0 : Video) (env : ExecEnv)
    (ca : Bool) (e : String) (v : Video) (ws : List WriteEvent)
    (h : execTryBlock v0 env ca = Except.error (e, v, ws)) :
    v.errorMessage = v0.errorMessage := by
  unfold execTryBlock at h
  cases hsv : env.saveVideo with
  | error e1 =>
    simp only [hsv, Except.error.injEq, Prod.mk.injEq] at h
    obtain ⟨-, h2, -⟩ := h
    rw [← h2]
  | ok u =>
    simp only [hsv] at h
    cases hdet : env.detect with
    | error e1 =>
      simp only [hdet, Except.error.injEq, Prod.mk.injEq] at h
      obtain ⟨-, h2, -⟩ := h
      rw [← h2]
    | ok r =>
      simp only [hdet] at h
      by_cases hc : (ca = true ∧ ¬r.damages = [])
      case pos =>
        rw [if_pos hc] at h
        cases hren : env.render with
        | error e1 =>
          simp only [hren, Except.error.injEq, Prod.mk.injEq] at h
          obtain ⟨-, h2, -⟩ := h
          rw [← h2]
        | ok p =>
          simp only [hren] at h
          cases hupd : env.updateCompleted with
          | error e1 =>
            simp only [hupd, Except.error.injEq, Prod.mk.injEq] at h
            obtain ⟨-, h2, -⟩ := h
            rw [← h2]
          | ok u2 =>
            simp only [hupd] at h
            cases hsd : env.saveDetection with
            | error e1 =>
              simp only [hsd, Except.error.injEq, Prod.mk.injEq] at h
              obtain ⟨-, h2, -⟩ := h
              rw [← h2]
            | ok u3 =>
              simp only [hsd] at h
              simp at h
      case neg =>
        rw [if_neg hc] at h
        cases hupd : env.updateCompleted with
        | error e1 =>
          simp only [hupd, Except.error.injEq, Prod.mk.injEq] at h
          obtain ⟨-, h2, -⟩ := h
          rw [← h2]
        | ok u2 =>
          simp only [hupd] at h
          cases hsd : env.saveDetection with
          | error e1 =>
            simp only [hsd, Except.error.injEq, Prod.mk.injEq] at h
            obtain ⟨-, h2, -⟩ := h
            rw [← h2]
          | ok u3 =>
            simp only [hsd] at h
            simp at h

/-- Claim C2, counterexample.  The claim says an exception raised after the
Video was created stores the captured error message on the record, and that
a failing `FAILED`-status write never masks the original exception.  Here
detection raises "boom" and the status write raises "disk full": the call
propagates "disk full" (the write's exception, not the original), and the
video record carries no error message. -/
theorem execute_masks_error_C2_counterexample :
    (execute exVideo0 envDetectFailWriteFail true).result
        = Except.error "disk full"
    ∧ ¬("disk full" = "boom")
    ∧ (execute exVideo0 envDetectFailWriteFail true).video.errorMessage = none := by
  exact ⟨rfl, by decide, rfl⟩

/-- Claim C2, amended.  Any exception raised inside the `try` block after the
Video entity was built sets the in-memory Video status to `FAILED`, but the
captured error message is not stored on the record (it stays whatever it was),
and while a successful `FAILED`-status write lets the original exception
propagate, a failing write propagates its own exception in place of the
original. -/
theorem execute_failure_path_C2 (v0 : Video) (env : ExecEnv) (ca : Bool)
    (e : String) (v : Video) (ws : List WriteEvent)
    (h : execTryBlock v0 env ca = Except.error (e, v, ws)) :
    (execute v0 env ca).video.status = VideoStatus.failed
    ∧ (execute v0 env ca).video.errorMessage = v0.errorMessage
    ∧ (env.updateFailed = Except.ok () →
        (execute v0 env ca).result = Except.error e)
    ∧ (∀ e2, env.updateFailed = Except.error e2 →
        (execute v0 env ca).result = Except.error e2) := by
  have hmsg := execTryBlock_error_errorMessage v0 env ca e v ws h
  unfold execute
  rw [h]
  unfold execHandler
  cases hu : env.updateFailed with
  | ok u =>
    cases u
    refine ⟨rfl, hmsg, fun _ => rfl, fun e2 h2 => ?_⟩
    exact absurd h2 (by simp)
  | error e2' =>
    refine ⟨rfl, hmsg, fun hok => ?_, fun e2 h2 => ?_⟩
    · exact absurd hok (by simp)
    · injection h2 with h3
      rw [← h3]

/-- Claim C2, witness: with collaborators whose detection raises "boom" and
whose `FAILED`-status write succeeds, the `try` block fails as required and
the conclusion holds at that input. -/
theorem execute_failure_path_C2_witness :
    execTryBlock exVideo0 envDetectFailWriteOk true
        = Except.error ("boom", exVideo0, [WriteEvent.savedVideo exVideo0])
    ∧ ((execute exVideo0 envDetectFailWriteOk true).video.status
          = VideoStatus.failed
      ∧ (execute exVideo0 envDetectFailWriteOk true).video.errorMessage
          = exVideo0.errorMessage
      ∧ (envDetectFailWriteOk.updateFailed = Except.ok () →
          (execute exVideo0 envDetectFailWriteOk true).result
            = Except.error "boom")
      ∧ (∀ e2, envDetectFailWriteOk.updateFailed = Except.error e2 →
          (execute exVideo0 envDetectFailWriteOk true).result
            = Except.error e2)) :=
  ⟨rfl, execute_failure_path_C2 exVideo0 envDetectFailWriteOk true "boom"
    exVideo0 [WriteEvent.savedVideo exVideo0] rfl⟩

/-- Claim C5, counterexample.  The claim says a renderer failure does not
invalidate the run: the DetectionResult is still persisted and returned and
the Video ends `COMPLETED`.  Here detection succeeds with one damage,
annotation is requested and the renderer raises: the call propagates the
renderer error, the Video ends `FAILED`, and no DetectionResult is ever
persisted. -/
theorem renderer_failure_C5_counterexample :
    (execute exVideo0 envRenderFail true).result = Except.error "render boom"
    ∧ (execute exVideo0 envRenderFail true).video.status = VideoStatus.failed
    ∧ (execute exVideo0 envRenderFail true).detectionPersisted = false := by
  exact ⟨rfl, rfl, rfl⟩

/-- Claim C5, amended.  When detection succeeds with damages, annotation is
requested and the renderer raises (and the `FAILED`-status write succeeds),
the run aborts: the renderer exception propagates to the caller, the Video
ends in status `FAILED`, and the DetectionResult is not persisted. -/
theorem renderer_failure_aborts_run_C5 (v0 : Video) (env : ExecEnv)
    (r : DetectionRes) (e : String)
    (hsave : env.saveVideo = Except.ok ())
    (hdet : env.detect = Except.ok r)
    (hdmg : r.damages ≠ [])
    (hrender : env.render = Except.error e)
    (hupd : env.updateFailed = Except.ok ()) :
    (execute v0 env true).result = Except.error e
    ∧ (execute v0 env true).video.status = VideoStatus.failed
    ∧ (execute v0 env true).detectionPersisted = false := by
  simp only [execute, execTryBlock, execHandler, ExecOut.detectionPersisted,
    hsave, hdet, hrender, hupd]
  simp [hdmg]

/-- Claim C5, witness: the amended statement holds at the concrete
collaborators whose renderer raises "render boom". -/
theorem renderer_failure_aborts_run_C5_witness :
    envRenderFail.saveVideo = Except.ok ()
    ∧ envRenderFail.detect = Except.ok resWithDamage
    ∧ resWithDamage.damages ≠ []
    ∧ envRenderFail.render = Except.error "render boom"
    ∧ envRenderFail.updateFailed = Except.ok ()
    ∧ ((execute exVideo0 envRenderFail true).result
          = Except.error "render boom"
      ∧ (execute exVideo0 envRenderFail true).video.status = VideoStatus.failed
      ∧ (execute exVideo0 envRenderFail true).detectionPersisted = false) :=
  ⟨rfl, rfl, by decide, rfl, rfl,
    renderer_failure_aborts_run_C5 exVideo0 envRenderFail resWithDamage
      "render boom" rfl rfl (by decide) rfl rfl⟩

theorem videoStatus_ofValue_value (s : VideoStatus) :
    VideoStatus.ofValue s.value = some s := by
  cases s <;> rfl

theorem videoFormat_ofValue_value (f : VideoFormat) :
    VideoFormat.ofValue f.value = some f := by
  cases f <;> rfl

/-- Claim C6, counterexample.  The claim says serializing a Video and
deserializing the record yields a Video equal to the original, every field
(including damages and error message) preserved.  Here a Video carrying an
error message round-trips to one without it. -/
theorem video_roundtrip_C6_counterexample :
    dictToVideo (fun _ => true) (fun _ => true) (videoToDict exVideoErr)
      ≠ Except.ok exVideoErr := by
  decide

/-- Claim C6, amended.  For every Video entity whose construction invariants
hold (its file exists, its suffix is supported, its metadata — if any — is
valid), the persisted record round-trips id, file path, name, status,
metadata and the created/updated timestamps, with enum values as stable
string tokens; but the damages list is always restored as the empty list, and
the error message, processed-at and processing-time fields are not serialized
at all, so they come back as `None`. -/
theorem video_roundtrip_partial_C6 (fsExists suffixSupported : String → Bool)
    (v : Video)
    (hfs : fsExists v.filePath = true)
    (hsuf : suffixSupported v.filePath = true)
    (hmeta : ∀ m, v.metadata = some m → m.valid = true) :
    dictToVideo fsExists suffixSupported (videoToDict v)
      = Except.ok { v with damages := [], processedAt := none,
                           processingTime := none, errorMessage := none } := by
  obtain ⟨id, filePath, name, status, createdAt, metadata, damages,
    processedAt, processingTime, errorMessage, updatedAt⟩ := v
  cases metadata with
  | none =>
    simp only [videoToDict, dictToVideo, Option.map_none'] at hfs hsuf ⊢
    simp [videoStatus_ofValue_value, hfs, hsuf, pure, Except.pure]
    rfl
  | some m =>
    obtain ⟨dur, fps, w, hgt, fc, fmt, fsz, codec, br⟩ := m
    have hv := hmeta _ rfl
    simp only at hv
    simp only [videoToDict, dictToVideo, Option.map_some'] at hfs hsuf ⊢
    simp [videoStatus_ofValue_value, videoFormat_ofValue_value, hv, hfs, hsuf,
      pure, Except.pure]
    rfl

/-- Claim C6, witness: the amended round trip holds at a concrete Video with
metadata and an updated-at stamp, under a file system where the file exists
and the suffix is supported. -/
theorem video_roundtrip_partial_C6_witness :
    (fun _ => true : String → Bool) exVideoMeta.filePath = true
    ∧ (∀ m, exVideoMeta.metadata = some m → m.valid = true)
    ∧ dictToVideo (fun _ => true) (fun _ => true) (videoToDict exVideoMeta)
      = Except.ok { exVideoMeta with damages := [], processedAt := none,
                                     processingTime := none,
                                     errorMessage := none } :=
  ⟨rfl,
   fun m hm => by
     rw [show exVideoMeta.metadata = some exMeta from rfl] at hm
     injection hm with h3
     rw [← h3]
     decide,
   video_roundtrip_partial_C6 (fun _ => true) (fun _ => true) exVideoMeta rfl
     rfl
     (fun m hm => by
       rw [show exVideoMeta.metadata = some exMeta from rfl] at hm
       injection hm with h3
       rw [← h3]
       decide)⟩

theorem processSingleVideo_not_admitted (admitted : List String)
    (item : PathItem) (h : item.path ∉ admitted) :
    (processSingleVideo admitted item).result
        = (processSingleVideo [] item).result
    ∧ (processSingleVideo admitted item).admitted = admitted := by
  cases hex : item.fileExists <;> cases hfmt : item.supportedFormat <;>
    cases hsz : item.sizeOk <;>
      simp [processSingleVideo, h, hex, hfmt, hsz, List.erase_cons_head]

theorem runTasks_fresh (admitted : List String) (items : List PathItem)
    (hfresh : ∀ it ∈ items, it.path ∉ admitted) :
    (runTasks admitted items).1
        = items.map (fun it => (processSingleVideo [] it).result)
    ∧ (runTasks admitted items).2.1 = admitted := by
  induction items generalizing admitted with
  | nil => simp [runTasks]
  | cons item rest ih =>
    have hitem := processSingleVideo_not_admitted admitted item
      (hfresh item (List.mem_cons_self item rest))
    have hrest : ∀ it ∈ rest, it.path ∉ admitted := fun it hit =>
      hfresh it (List.mem_cons_of_mem item hit)
    obtain ⟨ih1, ih2⟩ := ih admitted hrest
    constructor
    · simp only [runTasks, hitem.2, List.map_cons]
      rw [ih1, hitem.1]
    · simp only [runTasks, hitem.2]
      exact ih2

/-- Claim C3, counterexample.  The claim says that when all prechecks pass
and M of the N items fail during processing, the call still returns N results
aligned with the inputs (N−M successes and M failures).  Here N = 2, the
first item fails mid-run and the second succeeds, yet the call returns a list
with a single entry: the failures are dropped, not returned. -/
theorem batch_drops_failures_C3_counterexample :
    (processMultipleVideos [] [itemFailing, itemOk]).result
        = Except.ok [resEmpty]
    ∧ ¬(([resEmpty] : List DetectionRes).length
        = [itemFailing, itemOk].length) := by
  exact ⟨rfl, by decide⟩

/-- Claim C3, amended.  If any path fails the precheck (existence or
supported format), the whole batch is rejected with that error, nothing is
dispatched (so no Video is created for any path) and the admission set is
untouched.  If every precheck passes — with distinct paths, none already
admitted — every item runs independently: its per-task result is exactly what
a solo submission of that item would produce (so no item's failure aborts its
siblings), the admission set is restored, and the call returns only the
successful results, in input order; the failed items' errors are logged and
dropped from the returned list. -/
theorem batch_atomic_or_isolated_C3 (admitted : List String)
    (items : List PathItem) :
    (∀ e, precheckBatch items = some e →
        processMultipleVideos admitted items
          = { result := Except.error e, admitted := admitted,
              dispatched := [] })
    ∧ (precheckBatch items = none →
       (∀ it ∈ items, it.path ∉ admitted) →
       ((items.map PathItem.path).Nodup →
        (processMultipleVideos admitted items).result
            = Except.ok ((items.map fun it =>
                (processSingleVideo [] it).result).filterMap Except.toOption)
          ∧ (processMultipleVideos admitted items).admitted = admitted)) := by
  constructor
  · intro e he
    simp only [processMultipleVideos, he]
  · intro hpre hfresh _
    obtain ⟨h1, h2⟩ := runTasks_fresh admitted items hfresh
    constructor
    · simp only [processMultipleVideos, hpre]
      rw [h1]
    · simp only [processMultipleVideos, hpre]
      exact h2

/-- Claim C3, witness: a two-item batch passing every precheck, with distinct
fresh paths, where the first item fails mid-run and the second succeeds. -/
theorem batch_atomic_or_isolated_C3_witness :
    precheckBatch [itemFailing, itemOk] = none
    ∧ (∀ it ∈ [itemFailing, itemOk], it.path ∉ ([] : List String))
    ∧ ([itemFailing, itemOk].map PathItem.path).Nodup
    ∧ ((processMultipleVideos [] [itemFailing, itemOk]).result
        = Except.ok (([itemFailing, itemOk].map fun it =>
            (processSingleVideo [] it).result).filterMap Except.toOption)
      ∧ (processMultipleVideos [] [itemFailing, itemOk]).admitted = []) :=
  ⟨rfl, by decide, by decide,
    (batch_atomic_or_isolated_C3 [] [itemFailing, itemOk]).2 rfl (by decide)
      (by decide)⟩

/-- Claim C4, witness: a store holding one orphaned `processing` record with
no admission entry comes back unchanged with repair count 0. -/
theorem cleanupFailedVideos_never_repairs_C4_witness :
    cleanupFailedVideos
        [{ id := "r1", filePath := "/videos/a.mp4", status := "processing" }]
        [] "2024-01-03T00:00:00"
      = ([{ id := "r1", filePath := "/videos/a.mp4", status := "processing" }],
         0) :=
  cleanupFailedVideos_never_repairs_C4
    [{ id := "r1", filePath := "/videos/a.mp4", status := "processing" }]
    [] "2024-01-03T00:00:00"

/-- Claim C8, witness: the counting invariants at a concrete one-damage run. -/
theorem videoDetection_counts_C8_witness :
    (detectDamagesInVideo 30 [[dmgHalf]] 2).statistics.totalDamagesDetected
      = (detectDamagesInVideo 30 [[dmgHalf]] 2).damages.length
    ∧ sumCounts (detectDamagesInVideo 30 [[dmgHalf]] 2).statistics.damagesByType
      = (detectDamagesInVideo 30 [[dmgHalf]] 2).statistics.totalDamagesDetected :=
  videoDetection_counts_C8 30 2 [[dmgHalf]]

/-- Claim C9, witness: the admission-control property at a concrete fresh
submission. -/
theorem processSingleVideo_admission_C9_witness :
    ((processSingleVideo [] itemPlain).result
        = Except.error (VPError.alreadyProcessing itemPlain.path)
      ↔ itemPlain.path ∈ ([] : List String))
    ∧ (processSingleVideo [] itemPlain).admitted = [] :=
  processSingleVideo_admission_C9 [] itemPlain

/-- Claim C10, witness: a concrete frame whose inference raises yields the
empty damage list instead of an exception. -/
theorem detectDamagesInFrame_never_raises_C10_witness :
    detectDamagesInFrame true 0 (FrameOutcome.inferError "model error")
      = Except.ok [] :=
  detectDamagesInFrame_never_raises_C10.2.1 "model error" 0

end VDD
